import Mathlib

set_option maxRecDepth 100000

/-!
Verification development for the OAuth2 authorization-code flow in
`scripts/freelancer-tests/oauth2_flow.py`.

The Python script is embedded shallowly:
* `urlparse` / `parse_qs` from `urllib.parse` are modelled character-by-character
  (split on the first `?` / `#`, split the query on `&`, split each field at the
  first `=`, drop blank-valued fields, replace `+` by space and percent-decode);
* `OAuthCallbackHandler.do_GET` becomes `doGet`, returning the response status,
  content type, body and the assignment made to the global `auth_code`;
* `start_callback_server` (an `HTTPServer` on which `handle_request()` is called
  once) becomes `startCallbackServer`, a function on the stream of incoming
  request paths that serves the first one and stops;
* `get_authorization_url`, `exchange_code_for_token` and
  `client_credentials_flow` become pure functions; the single `requests.post`
  of the exchangers is recorded explicitly as the list of issued POST bodies,
  and browser/listener/POST side effects of `main` are recorded as an
  explicit `Effect` trace.
-/

/-- Hexadecimal value of a character, as accepted by `urllib.parse.unquote`
(`_hextobyte` covers both upper- and lower-case digits). -/
def hexVal (c : Char) : Option Nat :=
  if '0' ≤ c ∧ c ≤ '9' then some (c.toNat - 48)
  else if 'A' ≤ c ∧ c ≤ 'F' then some (c.toNat - 55)
  else if 'a' ≤ c ∧ c ≤ 'f' then some (c.toNat - 87)
  else none

/-- Scanner behind `unquoteChars`; the fuel argument only bounds the number of
steps (one unit per character consumed) so the recursion is structural. -/
def unquoteAux : Nat → List Char → List Char
  | 0, cs => cs
  | _ + 1, [] => []
  | fuel + 1, c :: rest =>
    if c = '%' then
      match rest with
      | a :: b :: rest2 =>
        match hexVal a, hexVal b with
        | some x, some y => Char.ofNat (16 * x + y) :: unquoteAux fuel rest2
        | _, _ => '%' :: unquoteAux fuel rest
      | _ => '%' :: unquoteAux fuel rest
    else c :: unquoteAux fuel rest

/-- Model of `urllib.parse.unquote` on ASCII data: each `%XX` with two hex
digits is replaced by the character with code `XX`; a `%` not followed by two
hex digits is kept literally, and scanning resumes right after it. -/
def unquoteChars (cs : List Char) : List Char :=
  unquoteAux cs.length cs

/-- `+` is turned into a space before percent-decoding, as in
`urllib.parse.unquote_plus` (used by `parse_qsl` on names and values). -/
def plusToSpace (cs : List Char) : List Char :=
  cs.map (fun c => if c = '+' then ' ' else c)

/-- Decoding applied by `parse_qsl` to each field name and value:
`value.replace('+', ' ')` followed by `unquote(value)`. -/
def decodeComponent (cs : List Char) : String :=
  String.mk (unquoteChars (plusToSpace cs))

/-- Split a character list at the FIRST occurrence of `sep`
(`str.split(sep, 1)` in Python); `none` when `sep` does not occur. -/
def splitFirst (sep : Char) : List Char → Option (List Char × List Char)
  | [] => none
  | c :: rest =>
    if c = sep then some ([], rest)
    else
      match splitFirst sep rest with
      | some (pre, post) => some (c :: pre, post)
      | none => none

/-- Split a character list on EVERY occurrence of `sep`
(`str.split(sep)` in Python); the result is never empty. -/
def splitOnChar (sep : Char) : List Char → List (List Char)
  | [] => [[]]
  | c :: rest =>
    match splitOnChar sep rest with
    | [] => [[c]]
    | g :: gs => if c = sep then [] :: g :: gs else (c :: g) :: gs

/-- The part of a URL before its fragment: `urlparse` first splits at the
first `#`. -/
def stripFragment (cs : List Char) : List Char :=
  match splitFirst '#' cs with
  | some (pre, _) => pre
  | none => cs

/-- `urlparse(url).query`: everything after the first `?` (fragment removed),
or the empty string when there is no `?`. -/
def getQuery (url : String) : String :=
  match splitFirst '?' (stripFragment url.data) with
  | some (_, q) => String.mk q
  | none => ""

/-- `urlparse(url).path`: everything before the first `?` (fragment removed). -/
def getPath (url : String) : String :=
  match splitFirst '?' (stripFragment url.data) with
  | some (p, _) => String.mk p
  | none => String.mk (stripFragment url.data)

/-- One field of a query string, processed as by `urllib.parse.parse_qsl` with
`keep_blank_values=False`: a field with no `=` is dropped, a field whose raw
value is empty is dropped, otherwise name and value are decoded. -/
def parseField (f : List Char) : Option (String × String) :=
  match splitFirst '=' f with
  | none => none
  | some (n, v) => if v = [] then none else some (decodeComponent n, decodeComponent v)

/-- Model of `urllib.parse.parse_qsl(qs)` (defaults): split on `&`, process
each field, keep the surviving decoded pairs in order. -/
def parseQsl (qs : String) : List (String × String) :=
  (splitOnChar '&' qs.data).filterMap parseField

/-- The value list `parse_qs(qs)[k]`: all values bound to key `k`, in order of
appearance; the key is in the `parse_qs` dictionary iff this list is nonempty. -/
def qsValues (prs : List (String × String)) (k : String) : List String :=
  (prs.filter (fun p => p.1 = k)).map (fun p => p.2)

/-- The static success page written by the handler on the `code` branch
(the exact bytes of the triple-quoted literal). -/
def successHtml : String :=
  "\n                <html>\n                    <body>\n                        <h1>Authorization successful!</h1>\n                        <p>You can close this window and return to the terminal.</p>\n                    </body>\n                </html>\n            "

/-- The error page written by the handler on the non-`code` branch, with the
error string interpolated (the exact f-string of the source). -/
def errorHtml (error : String) : String :=
  "\n                <html>\n                    <body>\n                        <h1>Authorization failed</h1>\n                        <p>Error: " ++ error ++ "</p>\n                    </body>\n                </html>\n            "

/-- `query_params.get('error', ['Unknown error'])[0]`. -/
def errorParam (qp : List (String × String)) : String :=
  match qsValues qp "error" with
  | e :: _ => e
  | [] => "Unknown error"

/-- Observable outcome of one handled GET request: HTTP status sent,
`Content-type` header, body written, and the value assigned to the global
`auth_code` (`none` when the handler leaves it untouched). -/
structure GetResponse where
  status : Nat
  contentType : String
  body : String
  captured : Option String
deriving DecidableEq

/-- The body of `OAuthCallbackHandler.do_GET` as a function of the query
string of the request line: if `'code' in query_params` the first `code`
value is captured and a 200 success page is sent, otherwise a 400 page
echoing `query_params.get('error', ['Unknown error'])[0]` is sent. -/
def doGetQuery (qs : String) : GetResponse :=
  let qp := parseQsl qs
  match qsValues qp "code" with
  | c :: _ => ⟨200, "text/html", successHtml, some c⟩
  | [] => ⟨400, "text/html", errorHtml (errorParam qp), none⟩

/-- `OAuthCallbackHandler.do_GET` on the raw request target `self.path`:
the path is parsed with `urlparse` and only its query component is used. -/
def doGet (path : String) : GetResponse :=
  doGetQuery (getQuery path)

/-- Method dispatch of `BaseHTTPRequestHandler`: the handler class defines
only `do_GET`, so only GET requests reach `doGet`; any other method is not
handled by this class (the base class answers 501). -/
def handleRequest (method : String) (path : String) : Option GetResponse :=
  if method = "GET" then some (doGet path) else none

/-- `AUTH_URL` of the script. -/
def AUTH_URL : String := "https://accounts.freelancer.com/oauth/authorise"

/-- `TOKEN_URL` of the script. -/
def TOKEN_URL : String := "https://accounts.freelancer.com/oauth/token"

/-- `'&'.join(...)`. -/
def joinAmp : List String → String
  | [] => ""
  | [f] => f
  | f :: rest => f ++ "&" ++ joinAmp rest

/-- `get_authorization_url`: the four parameters in insertion order, each
rendered as `f'{k}={v}'` — the raw value, with NO url-encoding — joined with
`&` and appended to `AUTH_URL` after a `?`. The module globals `CLIENT_ID`
and `REDIRECT_URI` are passed as arguments. -/
def getAuthorizationUrl (clientId redirectUri scope : String) : String :=
  let params := [("response_type", "code"), ("client_id", clientId),
                 ("redirect_uri", redirectUri), ("scope", scope)]
  AUTH_URL ++ "?" ++ joinAmp (params.map (fun p => p.1 ++ "=" ++ p.2))

/-- Characters never quoted by `urllib.parse.quote_plus`
(`_ALWAYS_SAFE`: letters, digits, `_`, `.`, `-`, `~`). -/
def isAlwaysSafe (c : Char) : Bool :=
  (('A' ≤ c ∧ c ≤ 'Z') ∨ ('a' ≤ c ∧ c ≤ 'z') ∨ ('0' ≤ c ∧ c ≤ '9')) ||
    c = '_' || c = '.' || c = '-' || c = '~'

/-- Upper-case hexadecimal digit, as produced by `urllib.parse.quote`. -/
def hexDigitChar (n : Nat) : Char :=
  if n < 10 then Char.ofNat (48 + n) else Char.ofNat (55 + n)

/-- Model of `urllib.parse.quote_plus` on ASCII input, the encoder
`urllib.parse.urlencode` applies to every parameter value: safe characters
kept, space becomes `+`, anything else becomes `%XX`. This is what "correctly
URL-encoded" means for a query parameter; the script never calls it. -/
def quotePlus (s : String) : String :=
  String.mk (s.data.foldr
    (fun c acc =>
      if c = ' ' then '+' :: acc
      else if isAlwaysSafe c then c :: acc
      else '%' :: hexDigitChar (c.toNat / 16) :: hexDigitChar (c.toNat % 16) :: acc)
    [])

/-- The raw `&`-separated fields of the query component of a URL. -/
def queryFields (url : String) : List String :=
  (splitOnChar '&' (getQuery url).data).map (fun cs => String.mk cs)

/-- Model of `start_callback_server`: an `HTTPServer` on which
`handle_request()` is called exactly once. Over the stream of incoming GET
request targets, the server serves the first one through `doGet` and stops;
the remaining requests are never accepted. Returns the response of the one
served request (if any arrived) and the unserved remainder. -/
def startCallbackServer (incoming : List String) : Option GetResponse × List String :=
  match incoming with
  | [] => (none, [])
  | r :: rest => (some (doGet r), rest)

/-- The `AuthorizationResult`s produced in a run: the `auth_code` assignments
(or their absence) of the requests actually served. -/
def authResults (incoming : List String) : List (Option String) :=
  match (startCallbackServer incoming).1 with
  | some resp => [resp.captured]
  | none => []

/-- A JSON value of the shapes appearing in token responses: a string or a
nonnegative integer. -/
inductive JsonVal where
  | str (s : String)
  | num (n : Nat)
deriving DecidableEq

/-- Parse a JSON string body after its opening quote, up to the closing quote
(no escape sequences, which the observed payloads do not use). -/
def parseStringBody : List Char → Option (List Char × List Char)
  | [] => none
  | c :: rest =>
    if c = '"' then some ([], rest)
    else
      match parseStringBody rest with
      | some (s, r) => some (c :: s, r)
      | none => none

/-- Longest prefix of decimal digits and the remainder. -/
def takeDigits : List Char → List Char × List Char
  | [] => ([], [])
  | c :: rest =>
    if c.isDigit then
      match takeDigits rest with
      | (ds, r) => (c :: ds, r)
    else ([], c :: rest)

/-- Numeric value of a digit string. -/
def digitsToNat (ds : List Char) : Nat :=
  ds.foldl (fun a c => 10 * a + (c.toNat - 48)) 0

/-- Parse one JSON value (string or nonnegative integer). -/
def parseJsonValue (cs : List Char) : Option (JsonVal × List Char) :=
  match cs with
  | '"' :: rest =>
    match parseStringBody rest with
    | some (s, r) => some (JsonVal.str (String.mk s), r)
    | none => none
  | _ =>
    match takeDigits cs with
    | ([], _) => none
    | (ds, r) => some (JsonVal.num (digitsToNat ds), r)

/-- Parse one `"key":value` member of a JSON object. -/
def parseJsonMember (cs : List Char) : Option ((String × JsonVal) × List Char) :=
  match cs with
  | '"' :: rest =>
    match parseStringBody rest with
    | some (k, r1) =>
      match r1 with
      | ':' :: r2 =>
        match parseJsonValue r2 with
        | some (v, r3) => some ((String.mk k, v), r3)
        | none => none
      | _ => none
    | none => none
  | _ => none

/-- Parse the members of a JSON object after the opening brace, up to the
closing brace; the fuel bounds the number of members. -/
def parseJsonMembers : Nat → List Char → Option (List (String × JsonVal) × List Char)
  | 0, _ => none
  | fuel + 1, cs =>
    match parseJsonMember cs with
    | none => none
    | some (kv, rest) =>
      match rest with
      | ',' :: rest2 =>
        match parseJsonMembers fuel rest2 with
        | some (ms, r) => some (kv :: ms, r)
        | none => none
      | '\x7d' :: rest2 => some ([kv], rest2)
      | _ => none

/-- Model of `response.json()` for the flat token payloads this flow
exchanges: a brace-delimited object of string/number members, no surrounding
whitespace. `none` models `json()` raising (caught by the script's `except`). -/
def parseJsonObject (s : String) : Option (List (String × JsonVal)) :=
  match s.data with
  | '\x7b' :: '\x7d' :: [] => some []
  | '\x7b' :: rest =>
    match parseJsonMembers (rest.length + 1) rest with
    | some (ms, []) => some ms
    | _ => none
  | _ => none

/-- An HTTP response as seen through `requests`: `status_code` and `text`
(the raw body, which `json()` parses). -/
structure HttpResponse where
  status : Nat
  text : String
deriving DecidableEq

/-- A form-encoded POST body, as the `data` dict of `requests.post`. -/
structure FormData where
  fields : List (String × String)
deriving DecidableEq

/-- The `data` dict built by `exchange_code_for_token`. -/
def tokenRequestData (clientId clientSecret redirectUri code : String) : FormData :=
  ⟨[("grant_type", "authorization_code"), ("code", code), ("client_id", clientId),
    ("client_secret", clientSecret), ("redirect_uri", redirectUri)]⟩

/-- Outcome of `exchange_code_for_token`: the returned value, the POST bodies
actually issued to `TOKEN_URL` (in order), and the diagnostic lines printed. -/
structure ExchangeResult where
  token : Option (List (String × JsonVal))
  posts : List FormData
  printed : List String
deriving DecidableEq

/-- `exchange_code_for_token`: build the form data, issue ONE POST (the
network is abstracted as `respond`), return the parsed JSON verbatim on
status 200, otherwise print the status and raw body and return `None`.
There is no loop and no second call: `posts` is always a one-element list. -/
def exchangeCodeForToken (clientId clientSecret redirectUri code : String)
    (respond : FormData → HttpResponse) : ExchangeResult :=
  let data := tokenRequestData clientId clientSecret redirectUri code
  let response := respond data
  if response.status = 200 then
    match parseJsonObject response.text with
    | some td => ⟨some td, [data], []⟩
    | none => ⟨none, [data], ["Error exchanging code for token: invalid JSON"]⟩
  else
    ⟨none, [data],
     ["Token exchange failed: " ++ toString response.status,
      "Response: " ++ response.text]⟩

/-- The `data` dict built by `client_credentials_flow`. -/
def clientCredentialsData (clientId clientSecret : String) : FormData :=
  ⟨[("grant_type", "client_credentials"), ("client_id", clientId),
    ("client_secret", clientSecret), ("scope", "basic")]⟩

/-- Side effects of the script that the claims speak about. -/
inductive Effect where
  | openBrowser (url : String)
  | startListener
  | postToken (data : FormData)
deriving DecidableEq

/-- `client_credentials_flow`: issue ONE POST with the client-credentials
form data and return the parsed JSON on status 200, else `None`. The effect
trace is exactly that single POST: the function contains no call to
`webbrowser.open` and no callback server. -/
def clientCredentialsFlow (clientId clientSecret : String)
    (respond : FormData → HttpResponse) :
    Option (List (String × JsonVal)) × List Effect :=
  let data := clientCredentialsData clientId clientSecret
  let response := respond data
  ((if response.status = 200 then parseJsonObject response.text else none),
   [Effect.postToken data])

/-- Effect trace of `main` as a function of the credentials, the menu choice,
the `auth_code` observed after the 60-second join (authorization-code mode
only), the redirect URI and the token endpoint. With missing credentials it
returns before any network effect. Choice `"1"` starts the callback listener,
opens the browser on the authorization URL, and exchanges the code if one was
captured; choice `"2"` runs `client_credentials_flow`; anything else does
nothing. -/
def mainEffects (clientId clientSecret choice : String) (cb : Option String)
    (redirectUri : String) (respond : FormData → HttpResponse) : List Effect :=
  if clientId = "" ∨ clientSecret = "" then []
  else
    match choice with
    | "1" =>
      [Effect.startListener,
       Effect.openBrowser (getAuthorizationUrl clientId redirectUri "basic")] ++
      (match cb with
       | some code =>
         (exchangeCodeForToken clientId clientSecret redirectUri code respond).posts.map
           Effect.postToken
       | none => [])
    | "2" => (clientCredentialsFlow clientId clientSecret respond).2
    | _ => []

/-- `true` on the effects that client-credentials mode must never perform. -/
def isBrowserOrListener : Effect → Bool
  | Effect.openBrowser _ => true
  | Effect.startListener => true
  | Effect.postToken _ => false

/-- The token-endpoint body of testable property five of the spec. -/
def t1Body : String :=
  "\x7b\"access_token\":\"t1\",\"token_type\":\"bearer\",\"expires_in\":3600\x7d"

/-- Claim C1 (counterexample): the query of the URL built for client id
`abc`, redirect URI `http://localhost:8080/callback` and scope `basic` is NOT
the four parameters with correctly URL-encoded values (in any order): the
builder inserts the raw values, so `redirect_uri` appears with `:` and `/`
unencoded instead of the percent-encoded form. -/
theorem c1_counterexample :
    ¬ List.Perm
        (queryFields (getAuthorizationUrl "abc" "http://localhost:8080/callback" "basic"))
        ["response_type=" ++ quotePlus "code",
         "client_id=" ++ quotePlus "abc",
         "redirect_uri=" ++ quotePlus "http://localhost:8080/callback",
         "scope=" ++ quotePlus "basic"] := by decide

/-- Claim C1 (amended): for client id `abc`, redirect URI
`http://localhost:8080/callback` and scope `basic`, the built authorization
URL carries exactly the four query parameters `response_type=code`,
`client_id`, `redirect_uri` and `scope` with their values inserted verbatim
(no URL-encoding is applied); at these inputs the query still parses back to
exactly those four parameters with the exact input values and no others. -/
theorem c1_verbatim_params :
    getAuthorizationUrl "abc" "http://localhost:8080/callback" "basic" =
      AUTH_URL ++ "?response_type=code&client_id=abc&redirect_uri=http://localhost:8080/callback&scope=basic" ∧
    parseQsl (getQuery (getAuthorizationUrl "abc" "http://localhost:8080/callback" "basic")) =
      [("response_type", "code"), ("client_id", "abc"),
       ("redirect_uri", "http://localhost:8080/callback"), ("scope", "basic")] :=
  ⟨by decide, by decide⟩

/-- Claim C2 (counterexample): a GET whose path differs from `/callback` is
NOT treated as the no-code branch: `/other?code=ZZZ` gets HTTP 200 and its
code is captured, because `do_GET` never inspects the path. -/
theorem c2_counterexample :
    getPath "/other?code=ZZZ" ≠ "/callback" ∧
    doGet "/other?code=ZZZ" = ⟨200, "text/html", successHtml, some "ZZZ"⟩ :=
  ⟨by decide, by decide⟩

/-- Claim C2 (amended): the handler implements only GET (any other method is
left to the base class), and it does not inspect the request path — the
outcome depends only on the query string; a GET, to any path, whose query
has no `code` and no `error` parameter takes the HTTP 400 branch with the
error echoed as `Unknown error` and captures nothing. -/
theorem c2_path_ignored :
    (∀ m p, m ≠ "GET" → handleRequest m p = none) ∧
    (∀ p q, getQuery p = getQuery q → doGet p = doGet q) ∧
    (∀ p, qsValues (parseQsl (getQuery p)) "code" = [] →
        qsValues (parseQsl (getQuery p)) "error" = [] →
        doGet p = ⟨400, "text/html", errorHtml "Unknown error", none⟩) := by
  refine ⟨fun m p h => by simp [handleRequest, h],
          fun p q h => by simp [doGet, h],
          fun p h1 h2 => by simp [doGet, doGetQuery, h1, errorParam, h2]⟩

/-- Witness for C2 (amended) at concrete requests. -/
theorem c2_witness :
    handleRequest "POST" "/callback" = none ∧
    doGet "/other?error=x" = doGet "/callback?error=x" ∧
    doGet "/elsewhere" = ⟨400, "text/html", errorHtml "Unknown error", none⟩ :=
  ⟨c2_path_ignored.1 "POST" "/callback" (by decide),
   c2_path_ignored.2.1 "/other?error=x" "/callback?error=x" (by decide),
   c2_path_ignored.2.2 "/elsewhere" (by decide) (by decide)⟩

/-- Claim C3: over any stream of incoming requests, the callback listener
serves exactly `min 1 n` requests — one when any arrive, zero otherwise — at
most one `AuthorizationResult` is produced, and every request after the first
is left unserved (`handle_request()` is called exactly once). -/
theorem c3_single_shot (incoming : List String) :
    (authResults incoming).length ≤ 1 ∧
    (startCallbackServer incoming).1.toList.length = min 1 incoming.length ∧
    (startCallbackServer incoming).2 = incoming.drop 1 := by
  cases incoming <;> simp [authResults, startCallbackServer]

/-- Claim C4: any GET whose query string carries a `code` parameter gets
HTTP 200 with the static success page, and the captured authorization code is
exactly the (first) value of that parameter. -/
theorem c4_code_branch (p c : String) (rest : List String)
    (h : qsValues (parseQsl (getQuery p)) "code" = c :: rest) :
    doGet p = ⟨200, "text/html", successHtml, some c⟩ := by
  simp [doGet, doGetQuery, h]

/-- Witness for C4 at `/callback?code=XYZ123`. -/
theorem c4_witness :
    qsValues (parseQsl (getQuery "/callback?code=XYZ123")) "code" = ["XYZ123"] ∧
    doGet "/callback?code=XYZ123" = ⟨200, "text/html", successHtml, some "XYZ123"⟩ :=
  ⟨by decide, c4_code_branch "/callback?code=XYZ123" "XYZ123" [] (by decide)⟩

/-- Claim C5: a GET with an `error` parameter and no `code` parameter gets
HTTP 400 with a page echoing the error string and captures nothing; with
neither parameter the same 400 branch echoes `Unknown error`. -/
theorem c5_error_branch :
    (∀ p e rest, qsValues (parseQsl (getQuery p)) "code" = [] →
        qsValues (parseQsl (getQuery p)) "error" = e :: rest →
        doGet p = ⟨400, "text/html", errorHtml e, none⟩) ∧
    (∀ p, qsValues (parseQsl (getQuery p)) "code" = [] →
        qsValues (parseQsl (getQuery p)) "error" = [] →
        doGet p = ⟨400, "text/html", errorHtml "Unknown error", none⟩) := by
  refine ⟨fun p e rest h1 h2 => by simp [doGet, doGetQuery, h1, errorParam, h2],
          fun p h1 h2 => by simp [doGet, doGetQuery, h1, errorParam, h2]⟩

/-- Witness for C5 at `/callback?error=access_denied` and `/callback`. -/
theorem c5_witness :
    doGet "/callback?error=access_denied" =
      ⟨400, "text/html", errorHtml "access_denied", none⟩ ∧
    doGet "/callback" = ⟨400, "text/html", errorHtml "Unknown error", none⟩ :=
  ⟨c5_error_branch.1 "/callback?error=access_denied" "access_denied" [] (by decide) (by decide),
   c5_error_branch.2 "/callback" (by decide) (by decide)⟩

/-- Claim C6: whenever the token endpoint answers with a status other than
200, `exchange_code_for_token` returns no token, has issued exactly the one
POST with the authorization-code form data, and prints the HTTP status and
the raw response body for diagnostics — no retry. -/
theorem c6_hard_failure (cid cs ru code : String) (respond : FormData → HttpResponse)
    (h : (respond (tokenRequestData cid cs ru code)).status ≠ 200) :
    (exchangeCodeForToken cid cs ru code respond).token = none ∧
    (exchangeCodeForToken cid cs ru code respond).posts = [tokenRequestData cid cs ru code] ∧
    (exchangeCodeForToken cid cs ru code respond).printed =
      ["Token exchange failed: " ++ toString (respond (tokenRequestData cid cs ru code)).status,
       "Response: " ++ (respond (tokenRequestData cid cs ru code)).text] := by
  refine ⟨?_, ?_, ?_⟩ <;> simp [exchangeCodeForToken, h]

/-- Witness for C6 at a token endpoint answering 401. -/
theorem c6_witness :
    (exchangeCodeForToken "id" "secret" "uri" "c0" (fun _ => ⟨401, "unauthorized"⟩)).token = none ∧
    (exchangeCodeForToken "id" "secret" "uri" "c0" (fun _ => ⟨401, "unauthorized"⟩)).posts =
      [tokenRequestData "id" "secret" "uri" "c0"] ∧
    (exchangeCodeForToken "id" "secret" "uri" "c0" (fun _ => ⟨401, "unauthorized"⟩)).printed =
      ["Token exchange failed: 401", "Response: unauthorized"] :=
  c6_hard_failure "id" "secret" "uri" "c0" (fun _ => ⟨401, "unauthorized"⟩) (by decide)

/-- Claim C7: a token endpoint answering 200 with
`{"access_token":"t1","token_type":"bearer","expires_in":3600}` makes the
exchanger return the parsed payload verbatim — exactly those three members,
no refresh token — after its single POST. -/
theorem c7_verbatim_token (cid cs ru code : String) :
    (exchangeCodeForToken cid cs ru code (fun _ => ⟨200, t1Body⟩)).token =
      some [("access_token", JsonVal.str "t1"), ("token_type", JsonVal.str "bearer"),
            ("expires_in", JsonVal.num 3600)] ∧
    (exchangeCodeForToken cid cs ru code (fun _ => ⟨200, t1Body⟩)).posts.length = 1 ∧
    List.lookup "refresh_token"
      ((exchangeCodeForToken cid cs ru code (fun _ => ⟨200, t1Body⟩)).token.getD []) = none := by
  have hp : parseJsonObject t1Body =
      some [("access_token", JsonVal.str "t1"), ("token_type", JsonVal.str "bearer"),
            ("expires_in", JsonVal.num 3600)] := by decide
  refine ⟨?_, ?_, ?_⟩ <;> simp [exchangeCodeForToken, hp, List.lookup]

/-- Claim C8: with credentials present, choice `2` of `main` produces exactly
one effect — the client-credentials POST with `grant_type=client_credentials`,
the client id and secret, and scope `basic` — and in particular neither opens
a browser nor starts the callback listener; `client_credentials_flow` itself
has that single POST as its whole effect trace. -/
theorem c8_no_browser_no_listener (cid cs ru : String) (cb : Option String)
    (respond : FormData → HttpResponse) (h1 : cid ≠ "") (h2 : cs ≠ "") :
    mainEffects cid cs "2" cb ru respond = [Effect.postToken (clientCredentialsData cid cs)] ∧
    (clientCredentialsFlow cid cs respond).2 = [Effect.postToken (clientCredentialsData cid cs)] ∧
    (mainEffects cid cs "2" cb ru respond).all (fun e => !isBrowserOrListener e) = true := by
  have hc : ¬ (cid = "" ∨ cs = "") := by
    rintro (h | h)
    · exact h1 h
    · exact h2 h
  refine ⟨?_, ?_, ?_⟩ <;>
    simp [mainEffects, hc, clientCredentialsFlow, isBrowserOrListener]

/-- Witness for C8 at concrete credentials. -/
theorem c8_witness :
    mainEffects "abc" "sec" "2" none "http://localhost:8080/callback"
        (fun _ => ⟨200, "\x7b\x7d"⟩) =
      [Effect.postToken (clientCredentialsData "abc" "sec")] ∧
    (clientCredentialsFlow "abc" "sec" (fun _ => ⟨200, "\x7b\x7d"⟩)).2 =
      [Effect.postToken (clientCredentialsData "abc" "sec")] ∧
    (mainEffects "abc" "sec" "2" none "http://localhost:8080/callback"
        (fun _ => ⟨200, "\x7b\x7d"⟩)).all (fun e => !isBrowserOrListener e) = true :=
  c8_no_browser_no_listener "abc" "sec" "http://localhost:8080/callback" none
    (fun _ => ⟨200, "\x7b\x7d"⟩) (by decide) (by decide)

/-- Claim C9: when a query string carries both a `code` and an `error`
parameter, the `code` branch wins: HTTP 200, the code is captured, and the
error parameter plays no role in the response. -/
theorem c9_code_precedence (p c : String) (restc : List String) (e : String)
    (reste : List String)
    (hc : qsValues (parseQsl (getQuery p)) "code" = c :: restc)
    (_he : qsValues (parseQsl (getQuery p)) "error" = e :: reste) :
    doGet p = ⟨200, "text/html", successHtml, some c⟩ := by
  simp [doGet, doGetQuery, hc]

/-- Witness for C9 at `/callback?code=AAA&error=denied`. -/
theorem c9_witness :
    qsValues (parseQsl (getQuery "/callback?code=AAA&error=denied")) "code" = ["AAA"] ∧
    qsValues (parseQsl (getQuery "/callback?code=AAA&error=denied")) "error" = ["denied"] ∧
    doGet "/callback?code=AAA&error=denied" = ⟨200, "text/html", successHtml, some "AAA"⟩ :=
  ⟨by decide, by decide,
   c9_code_precedence "/callback?code=AAA&error=denied" "AAA" [] "denied" []
     (by decide) (by decide)⟩

/-- Claim C10: a request whose `code` parameter has a blank value is handled
exactly like one with no `code` parameter at all — `parse_qs` drops
blank-valued fields — so `/callback?code=` takes the HTTP 400 branch with
`Unknown error` and captures nothing. -/
theorem c10_blank_code :
    doGet "/callback?code=" = doGet "/callback" ∧
    qsValues (parseQsl (getQuery "/callback?code=")) "code" = [] ∧
    doGet "/callback?code=" = ⟨400, "text/html", errorHtml "Unknown error", none⟩ :=
  ⟨by decide, by decide, by decide⟩
